import Mathlib

/-!
Verification of the `edn` repository (a C++ EDN data-notation toolkit and
Lisp-style evaluator) against its natural-language specification.

The development shallowly embeds the relevant C++ sources:

* `src/include/value.hpp` — the value model `value_t` (a `std::variant` over
  fifteen alternatives), its `eq_visitor` / `lt_visitor` comparisons and its
  `print_visitor` formatting;
* `src/include/tokenize.hpp` + `src/include/parse.hpp` — the combinator-based
  tokenizer and the recursive-descent reader producing `value_t`;
* `src/include/edn.hpp` — the older self-contained implementation (its own
  tokenizer with `read_quoted_string`, its `parse_fn`);
* `src/include/evaluate.hpp` — the tree-walking evaluator over `value_t`
  (`stack_t`, `clojure_t`, the special-form handlers).

Machine integers are modelled as `Int` (the sources use 32-bit `int`; the
clamping behaviour of stream extraction is modelled where it matters), C++
`double` is modelled as the exact rational value `Rat` it denotes (all doubles
arising in the proofs are exactly representable), `std::string` as `String`
(inputs are ASCII), and exceptions as explicit error results.
-/

namespace Edn

/-- The value model of `value.hpp`: `value_t` is a `std::variant` whose
alternatives appear in exactly this order (`data_type`, value.hpp:359-374).
`box_t` indirection is transparent in the embedding.  Collections
(`vector_t`, `list_t` are `std::vector<value_t>`; `set_t` is
`std::set<value_t>`; `map_t` is `std::map<value_t, value_t>`) are carried as
the sequence of elements in iteration order.  A `callable_t` is a
`std::function`; the only callables the embedded evaluator constructs are
`clojure_t` closures, carried as their overload list (parameter value, body)
together with the index of the captured stack frame. -/
inductive Value : Type where
  | nil : Value
  | integer (n : Int) : Value
  | floating (q : Rat) : Value
  | boolean (b : Bool) : Value
  | character (c : Char) : Value
  | str (s : String) : Value
  | symbol (s : String) : Value
  | keyword (s : String) : Value
  | vector (xs : List Value) : Value
  | list (xs : List Value) : Value
  | set (xs : List Value) : Value
  | map (xs : List (Value × Value)) : Value
  | tagged (tag : String) (element : Value) : Value
  | quoted (element : Value) : Value
  | callable (overloads : List (Value × List Value)) (stackIdx : Nat) : Value

/-- `value_type_t` (value.hpp:253-270), in declared enumeration order. -/
inductive VType : Type where
  | nil | integer | floatingPoint | boolean | character | string
  | symbol | keyword | vector | list | set | map
  | taggedElement | quotedElement | callable
deriving DecidableEq

/-- The integer rank of a `value_type_t` enumerator (its declaration order),
used to talk about the "fixed enumeration order" of the variants. -/
def VType.toNat : VType → Nat
  | .nil => 0 | .integer => 1 | .floatingPoint => 2 | .boolean => 3
  | .character => 4 | .string => 5 | .symbol => 6 | .keyword => 7
  | .vector => 8 | .list => 9 | .set => 10 | .map => 11
  | .taggedElement => 12 | .quotedElement => 13 | .callable => 14

/-- `get_type_visitor` (value.hpp:295-357): the discriminator of a value. -/
def vtype : Value → VType
  | .nil => .nil
  | .integer _ => .integer
  | .floating _ => .floatingPoint
  | .boolean _ => .boolean
  | .character _ => .character
  | .str _ => .string
  | .symbol _ => .symbol
  | .keyword _ => .keyword
  | .vector _ => .vector
  | .list _ => .list
  | .set _ => .set
  | .map _ => .map
  | .tagged _ _ => .taggedElement
  | .quoted _ => .quotedElement
  | .callable _ _ => .callable

/-- The text `operator<<` prints for a `value_type_t` (value.hpp:272-293). -/
def VType.name : VType → String
  | .nil => "nil" | .integer => "integer" | .floatingPoint => "floating_point"
  | .boolean => "boolean" | .character => "character" | .string => "string"
  | .symbol => "symbol" | .keyword => "keyword" | .vector => "vector"
  | .list => "list" | .set => "set" | .map => "map"
  | .taggedElement => "tagged_element" | .quotedElement => "quoted_element"
  | .callable => "callable"

/-- `std::numeric_limits<double>::epsilon()` = 2^-52, the tolerance used by
`eq_visitor` on `floating_point_t` (value.hpp:620-623). -/
def dblEpsilon : Rat := 1 / 2 ^ 52

mutual

/-- `eq_visitor` (value.hpp:602-666), dispatched by `operator==`
(value.hpp:734-737).  Matching alternatives compare payloads (floats with
absolute tolerance `dblEpsilon`; the `tagged_element_t` case compares ONLY the
boxed elements, ignoring the tags, value.hpp:652-655); every mismatched pair
of alternatives falls into the template catch-all returning `false`
(value.hpp:661-665) — including `callable_t` against `callable_t`, for which
no dedicated overload exists. -/
def veq : Value → Value → Bool
  | .nil, .nil => true
  | .boolean a, .boolean b => a == b
  | .character a, .character b => a == b
  | .integer a, .integer b => a == b
  | .floating a, .floating b => decide (|a - b| < dblEpsilon)
  | .str a, .str b => a == b
  | .symbol a, .symbol b => a == b
  | .keyword a, .keyword b => a == b
  | .list a, .list b => veqList a b
  | .vector a, .vector b => veqList a b
  | .set a, .set b => veqList a b
  | .map a, .map b => veqPairs a b
  | .tagged _ a, .tagged _ b => veq a b
  | .quoted a, .quoted b => veq a b
  | _, _ => false

/-- `std::vector<value_t>::operator==` / sequence equality of `std::set`:
equal sizes and element-wise `operator==`. -/
def veqList : List Value → List Value → Bool
  | [], [] => true
  | x :: xs, y :: ys => veq x y && veqList xs ys
  | _, _ => false

/-- `std::map<value_t, value_t>::operator==`: equal sizes and pair-wise
`std::pair::operator==` (both components via `value_t::operator==`). -/
def veqPairs : List (Value × Value) → List (Value × Value) → Bool
  | [], [] => true
  | (k1, v1) :: xs, (k2, v2) :: ys => veq k1 k2 && veq v1 v2 && veqPairs xs ys
  | _, _ => false

end

mutual

/-- `lt_visitor` (value.hpp:668-732), dispatched by `operator<`
(value.hpp:739-742).  Matching alternatives compare payloads (the
`tagged_element_t` case compares ONLY the boxed elements, ignoring the tags,
value.hpp:718-721); every mismatched pair of alternatives falls into the
template catch-all returning `false` (value.hpp:727-731). -/
def vlt : Value → Value → Bool
  | .nil, .nil => false
  | .boolean a, .boolean b => !a && b
  | .character a, .character b => decide (a < b)
  | .integer a, .integer b => decide (a < b)
  | .floating a, .floating b => decide (a < b)
  | .str a, .str b => decide (a < b)
  | .symbol a, .symbol b => decide (a < b)
  | .keyword a, .keyword b => decide (a < b)
  | .list a, .list b => vltList a b
  | .vector a, .vector b => vltList a b
  | .set a, .set b => vltList a b
  | .map a, .map b => vltPairs a b
  | .tagged _ a, .tagged _ b => vlt a b
  | .quoted a, .quoted b => vlt a b
  | _, _ => false
termination_by a b => sizeOf a + sizeOf b

/-- `std::vector<value_t>::operator<` / `std::set<value_t>::operator<`:
`std::lexicographical_compare` of the element sequences with
`value_t::operator<`. -/
def vltList : List Value → List Value → Bool
  | _, [] => false
  | [], _ :: _ => true
  | x :: xs, y :: ys => if vlt x y then true else if vlt y x then false else vltList xs ys
termination_by a b => sizeOf a + sizeOf b

/-- `std::pair<value_t, value_t>::operator<`: lexicographic over the
components using `value_t::operator<` only. -/
def vpairLt : Value × Value → Value × Value → Bool
  | (k1, v1), (k2, v2) => vlt k1 k2 || (!vlt k2 k1 && vlt v1 v2)
termination_by a b => sizeOf a + sizeOf b

/-- `std::map<value_t, value_t>::operator<`: `std::lexicographical_compare`
of the entry sequences with `std::pair::operator<`. -/
def vltPairs : List (Value × Value) → List (Value × Value) → Bool
  | _, [] => false
  | [], _ :: _ => true
  | p :: ps, q :: qs => if vpairLt p q then true else if vpairLt q p then false else vltPairs ps qs
termination_by a b => sizeOf a + sizeOf b

end

/-- `character_names` (value.hpp:168-172). -/
def characterNames : List (Char × String) := [(' ', "space"), ('\n', "newline"), ('\t', "tab")]

/-- `format_character` (value.hpp:174-185): a backslash followed by the
character's table name if present, else by the character itself. -/
def formatCharacter (c : Char) : String :=
  match (characterNames.find? fun p => p.1 == c) with
  | some p => "\\" ++ p.2
  | none => "\\" ++ String.singleton c

/-- `std::quoted` with default delimiter `"` and escape `\`
(used by `print_visitor` on `string_t`, value.hpp:211-214): the delimiter and
the escape character are each preceded by the escape character; everything
else is copied verbatim. -/
def cppQuoted (s : String) : String :=
  "\"" ++ String.join (s.data.map fun c =>
    if c == '"' || c == '\\' then "\\" ++ String.singleton c else String.singleton c) ++ "\""

/-- Round the fraction `p / q` (with `q > 0`) to the nearest natural number,
ties to even — the correct rounding a conforming `printf`/ostream applies
when shortening the exact value of a double to the requested number of
significant digits. -/
def roundHalfEvenN (p q : Nat) : Nat :=
  let i := p / q
  let r := p % q
  if 2 * r < q then i
  else if q < 2 * r then i + 1
  else if i % 2 = 0 then i else i + 1

/-- Base-10 logarithm of a positive natural number (the number of decimal
digits minus one), by fuelled repeated division. -/
def natLog10 (fuel n : Nat) : Nat :=
  match fuel with
  | 0 => 0
  | f + 1 => if n < 10 then 0 else natLog10 f (n / 10) + 1

/-- The decimal exponent of the positive rational `n / d`: the unique `k`
with `10^k ≤ n / d < 10^(k+1)`. -/
def ratExp10 (n d : Nat) : Int :=
  if d ≤ n then (natLog10 (n / d) (n / d) : Int)
  else
    let t := natLog10 (d / n) (d / n)
    if d ≤ n * 10 ^ t then -(t : Int) else -(t + 1 : Int)

/-- Drop trailing `0` characters. -/
def stripZeros (s : String) : String :=
  ⟨(s.data.reverse.dropWhile fun c => c == '0').reverse⟩

/-- Fixed-point rendering of six significant digits `ds` with decimal
exponent `k` (`-4 ≤ k < 6`), trailing zeros of the fractional part removed,
as `%g` does. -/
def fixedNotation (ds : String) (k : Int) : String :=
  if 0 ≤ k then
    let ip := ds.take (k + 1).toNat
    let fp := stripZeros (ds.drop (k + 1).toNat)
    ip ++ (if fp = "" then "" else "." ++ fp)
  else
    "0." ++ String.mk (List.replicate (-k - 1).toNat '0') ++ stripZeros ds

/-- Scientific rendering of six significant digits `ds` with decimal exponent
`k`, as `%g` does (`d.ddddd` with trailing zeros removed, exponent sign and
at least two exponent digits). -/
def sciNotation (ds : String) (k : Int) : String :=
  let mant := ds.take 1
  let fp := stripZeros (ds.drop 1)
  let e := k.natAbs
  mant ++ (if fp = "" then "" else "." ++ fp) ++ "e" ++ (if k < 0 then "-" else "+")
    ++ (if e < 10 then "0" ++ toString e else toString e)

/-- Models the default `std::ostream` output for a `double` (equivalent to
`printf %g` with precision 6) applied to the exact rational value of the
double: six significant digits, trailing zeros removed, fixed notation for
decimal exponents in `[-4, 6)` and scientific notation otherwise.  In
particular an integral value such as `1.0` prints without any decimal point
(`"1"`). -/
def formatFloat (q : Rat) : String :=
  if q.num = 0 then "0"
  else
    let sgn := if q.num < 0 then "-" else ""
    let n := q.num.natAbs
    let d := q.den
    let k := ratExp10 n d
    let nd : Nat × Nat := if 5 ≤ k then (n, d * 10 ^ (k - 5).toNat) else (n * 10 ^ (5 - k).toNat, d)
    let r := roundHalfEvenN nd.1 nd.2
    let rk : Nat × Int := if r = 1000000 then (100000, k + 1) else (r, k)
    let ds := toString rk.1
    if -4 ≤ rk.2 ∧ rk.2 < 6 then sgn ++ fixedNotation ds rk.2 else sgn ++ sciNotation ds rk.2

mutual

/-- `print_visitor` (value.hpp:187-251) together with the collection
`operator<<` overloads (value.hpp:532-600): the readable-mode formatting of a
`value_t`. -/
def formatValue : Value → String
  | .nil => "nil"
  | .integer n => toString n
  | .floating q => formatFloat q
  | .boolean b => if b then "true" else "false"
  | .character c => formatCharacter c
  | .str s => cppQuoted s
  | .symbol s => s
  | .keyword s => ":" ++ s
  | .vector xs => "[" ++ formatValues xs ++ "]"
  | .list xs => "(" ++ formatValues xs ++ ")"
  | .set xs => "#\x7b" ++ formatValues xs ++ "\x7d"
  | .map xs => "\x7b" ++ formatPairs xs ++ "\x7d"
  | .tagged t e => "#" ++ t ++ " " ++ formatValue e
  | .quoted e => "'" ++ formatValue e
  | .callable _ _ => "<< callable >>"

/-- Space-joined formatting of a sequence of elements (the pattern of the
collection `operator<<` overloads). -/
def formatValues : List Value → String
  | [] => ""
  | [x] => formatValue x
  | x :: xs => formatValue x ++ " " ++ formatValues xs

/-- Space-joined formatting of map entries: `k v` pairs separated by spaces
(value.hpp:587-600). -/
def formatPairs : List (Value × Value) → String
  | [] => ""
  | [(k, v)] => formatValue k ++ " " ++ formatValue v
  | (k, v) :: xs => formatValue k ++ " " ++ formatValue v ++ " " ++ formatPairs xs

end



/-!
## The reader: `tokenize.hpp` + `parse.hpp`

`tokenize.hpp` builds its tokenizer from combinators of `parsing.hpp`, a
header of this repository that is not under `src/` (only its caller is).
The primitive combinators are therefore modelled from the spec (section 4.2,
"Lexical structure") and from the way `parse.hpp` consumes the token values:

* `parsing::character(p)` consumes exactly one character satisfying `p`;
  `parsing::many` / `parsing::at_least(1)` repeat a parser; `parsing::sequence`
  matches parsers in order and the token spans everything matched;
  `parsing::optional` makes a parser optional; `parsing::any` is alternation.
* `a >> b` matches `a` then `b` but the token value keeps only `b`'s text:
  `parse_fn::read_atom` requires the value of a character token `\a` to be
  `"a"` (one character, no backslash) and of `\space` to be `"space"`, and
  both `character` and `keyword` are built with `>>`.
* `parsing::quoted_string()` consumes a double-quoted literal, processing the
  escapes `\n \r \t \\ \"` of spec section 4.2; an unterminated string or an
  unknown escape is a parse failure; the token value is the processed
  contents without the quotes (`read_atom` uses the value directly as the
  string's contents).
* `parsing::is_space` / `is_digit` / `is_graph` are `std::isspace` /
  `std::isdigit` / `std::isgraph` in the C locale; `parsing::one_of` and
  `parsing::ne` are the evident character predicates.

A parser is modelled as `List Char → Option (List Char × List Char)`
returning the token value and the remainder.
-/

/-- `one_of("()[]\x7b\x7d")`: the bracket characters (tokenize.hpp:66). -/
def isParenC (c : Char) : Bool :=
  c == '(' || c == ')' || c == '[' || c == ']' || c == '\x7b' || c == '\x7d'

/-- `std::isspace` in the C locale. -/
def isSpaceStd (c : Char) : Bool :=
  c == ' ' || c == '\t' || c == '\n' || c == '\x0b' || c == '\x0c' || c == '\r'

/-- `std::isdigit`. -/
def isDigitC (c : Char) : Bool := '0' ≤ c && c ≤ '9'

/-- `std::isgraph` in the C locale: printable and not a space (0x21-0x7E). -/
def isGraphC (c : Char) : Bool := '!' ≤ c && c ≤ '~'

/-- `std::isprint` in the C locale: printable including space (0x20-0x7E). -/
def isPrintC (c : Char) : Bool := ' ' ≤ c && c ≤ '~'

/-- The `space` parser (tokenize.hpp:78): one character that is whitespace or
a comma. -/
def spaceParse : List Char → Option (List Char × List Char)
  | c :: rest => if isSpaceStd c || c == ',' then some ([c], rest) else none
  | [] => none

/-- The `comment` parser (tokenize.hpp:69): a `;` followed by everything up
to (excluding) the next newline. -/
def commentParse : List Char → Option (List Char × List Char)
  | c :: rest =>
    if c == ';' then
      let p := rest.span fun d => !(d == '\n')
      some (c :: p.1, p.2)
    else none
  | [] => none

/-- `parsing::character(ch)`: exactly the given character. -/
def charLitParse (ch : Char) : List Char → Option (List Char × List Char)
  | c :: rest => if c == ch then some ([c], rest) else none
  | [] => none

/-- `optional(any(character(PLUS), character(MINUS)))`: split off an optional
leading sign. -/
def signSplit : List Char → List Char × List Char
  | c :: rest => if c == '+' || c == '-' then ([c], rest) else ([], c :: rest)
  | [] => ([], [])

/-- The `integer` parser (tokenize.hpp:79-81): optional sign then at least
one digit. -/
def integerParse (s : List Char) : Option (List Char × List Char) :=
  let sg := signSplit s
  let ds := sg.2.span isDigitC
  if ds.1.isEmpty then none else some (sg.1 ++ ds.1, ds.2)

/-- The `floating_point` parser (tokenize.hpp:82-86): optional sign, at least
one digit, a dot, then any number of digits. -/
def floatingParse (s : List Char) : Option (List Char × List Char) :=
  let sg := signSplit s
  let ds := sg.2.span isDigitC
  if ds.1.isEmpty then none
  else match ds.2 with
    | '.' :: s3 =>
      let fs := s3.span isDigitC
      some (sg.1 ++ ds.1 ++ '.' :: fs.1, fs.2)
    | _ => none

/-- Modelled from the spec: the body scan of `parsing::quoted_string()`
(`parsing.hpp` is not under `src/`), after the opening quote.  Escapes
`\n \r \t \\ \"` are processed into their characters (spec section 4.2); an
unknown escape or running out of input without a closing quote fails. -/
def qsGo : List Char → List Char → Option (List Char × List Char)
  | [], _ => none
  | '"' :: rest, acc => some (acc.reverse, rest)
  | '\\' :: e :: rest, acc =>
    if e == 'n' then qsGo rest ('\n' :: acc)
    else if e == 'r' then qsGo rest ('\r' :: acc)
    else if e == 't' then qsGo rest ('\t' :: acc)
    else if e == '\\' || e == '"' then qsGo rest (e :: acc)
    else none
  | c :: rest, acc => qsGo rest (c :: acc)

/-- Modelled from the spec: `parsing::quoted_string()` — a double-quoted
string literal; the token value is the processed contents without the
surrounding quotes. -/
def quotedStringParse : List Char → Option (List Char × List Char)
  | '"' :: rest => qsGo rest []
  | _ => none

/-- The `character` parser (tokenize.hpp:75-77): a backslash then at least
one graphic non-bracket character; the token value keeps only the part after
the backslash (`>>`). -/
def characterParse : List Char → Option (List Char × List Char)
  | '\\' :: rest =>
    let p := rest.span fun c => isGraphC c && !isParenC c
    if p.1.isEmpty then none else some (p.1, p.2)
  | _ => none

/-- The `symbol` parser (tokenize.hpp:71-73): a first character that is not a
bracket, not whitespace and not a digit, then any number of characters that
are not brackets and not whitespace.  (`parsing::is_space` does not treat the
comma as whitespace, so a comma can occur inside a symbol token.) -/
def symbolParse : List Char → Option (List Char × List Char)
  | c :: rest =>
    if !isParenC c && !isSpaceStd c && !isDigitC c then
      let p := rest.span fun d => !isParenC d && !isSpaceStd d
      some (c :: p.1, p.2)
    else none
  | [] => none

/-- The `keyword` parser (tokenize.hpp:74): a colon then a symbol; the token
value keeps only the symbol part (`>>`). -/
def keywordParse : List Char → Option (List Char × List Char)
  | ':' :: rest => symbolParse rest
  | _ => none

/-- The `parenthesis` parser (tokenize.hpp:68): one bracket character. -/
def parenParse : List Char → Option (List Char × List Char)
  | c :: rest => if isParenC c then some ([c], rest) else none
  | [] => none

/-- `token_type_t` of tokenize.hpp:9-20 (the `parenthesis` kind covers all
six brackets; `hash` and `quote` are their own kinds). -/
inductive CTokType : Type where
  | quotedString | integer | floatingPoint | character | keyword | symbol
  | parenthesis | hash | quote
deriving DecidableEq

/-- A token of `tokenize.hpp`: the token value text and its kind. -/
structure CTok : Type where
  value : String
  type : CTokType
deriving DecidableEq

/-- One attempt of the `for` loop body in `tokenizer_fn::operator()`
(tokenize.hpp:50-60): if the parser matches, the stream advances and — when
the parser has an associated token type — a token is appended. -/
def tokStep (acc : List CTok × List Char)
    (p : List Char → Option (List Char × List Char)) (ty : Option CTokType) :
    List CTok × List Char :=
  match p acc.2 with
  | some r =>
    (match ty with
     | some t => (acc.1 ++ [⟨String.mk r.1, t⟩], r.2)
     | none => (acc.1, r.2))
  | none => acc

/-- One full pass of the `for` loop over the `parsers` vector
(tokenize.hpp:89-101), in its declared order.  Note that within a single pass
each parser is attempted once, in order, on the stream as left by the
previous successful parser — the loop does not restart after a match. -/
def tokPass (s : List Char) : List CTok × List Char :=
  let a0 : List CTok × List Char := ([], s)
  let a1 := tokStep a0 spaceParse none
  let a2 := tokStep a1 commentParse none
  let a3 := tokStep a2 (charLitParse '#') (some .hash)
  let a4 := tokStep a3 (charLitParse '\x27') (some .quote)
  let a5 := tokStep a4 floatingParse (some .floatingPoint)
  let a6 := tokStep a5 integerParse (some .integer)
  let a7 := tokStep a6 quotedStringParse (some .quotedString)
  let a8 := tokStep a7 characterParse (some .character)
  let a9 := tokStep a8 keywordParse (some .keyword)
  let a10 := tokStep a9 symbolParse (some .symbol)
  tokStep a10 parenParse (some .parenthesis)

/-- The `while (stream)` loop of `tokenizer_fn::operator()`
(tokenize.hpp:44-63), with explicit fuel: on any non-empty stream at least
one parser of the pass matches at least one character, so `s.length` passes
always suffice and the fuel case is never reached on the inputs below. -/
def tokLoop : Nat → List Char → List CTok
  | 0, _ => []
  | _, [] => []
  | n + 1, s =>
    let p := tokPass s
    p.1 ++ tokLoop n p.2

/-- `tokenize` (tokenize.hpp:42-102). -/
def tokenize (text : String) : List CTok :=
  tokLoop text.length text.data

/-- Result of a reader or evaluator operation: a produced value, a thrown
`std::runtime_error` carrying a message, an out-of-bounds unchecked access
(`oob` models reading past the end of a `std::vector` through the unchecked
`operator[]` — C++ undefined behaviour, which is NOT a thrown error and is
not caught by any handler), or exhaustion of the recursion fuel the model
supplies (a model artifact: the sources' recursion terminates because every
step consumes at least one token, so ample fuel is always passed and
`fuelOut` is never reached in the theorems below). -/
inductive PRes (α : Type) where
  | ok (a : α)
  | err (m : String)
  | oob
  | fuelOut
deriving DecidableEq

/-- Sequencing of reader results. -/
def PRes.bind : PRes α → (α → PRes β) → PRes β
  | .ok a, f => f a
  | .err m, _ => .err m
  | .oob, _ => .oob
  | .fuelOut, _ => .fuelOut

/-- `parse_fn::pop_front` (parse.hpp:36-46): the first token and the rest,
or a thrown error on an empty vector. -/
def popFront : List CTok → PRes (CTok × List CTok)
  | [] => .err "Cannot pop from empty vector"
  | t :: ts => .ok (t, ts)

/-- One `insert` into a `std::set<value_t>` ordered by `value_t::operator<`:
the element is placed before the first strictly greater element; if the scan
meets an element with which it compares equivalent (neither `<` holds), it is
not inserted.  (`value_t::operator<` is not a strict weak ordering across
variants, where `std::set` behaviour is formally undefined; the model keeps
the first equivalent element, which matches the defined-behaviour cases.) -/
def setInsert (l : List Value) (x : Value) : List Value :=
  match l with
  | [] => [x]
  | y :: ys =>
    if vlt x y then x :: y :: ys
    else if vlt y x then y :: setInsert ys x
    else y :: ys

/-- `set_t{items.begin(), items.end()}` (parse.hpp:76): range insertion. -/
def setOfList (xs : List Value) : List Value := xs.foldl setInsert []

/-- One `emplace` into a `std::map<value_t, value_t>` keyed by
`value_t::operator<`: like `setInsert`, and an entry whose key is equivalent
to an existing key is discarded (emplace does not overwrite). -/
def mapEmplace (l : List (Value × Value)) (kv : Value × Value) : List (Value × Value) :=
  match l with
  | [] => [kv]
  | p :: ps =>
    if vlt kv.1 p.1 then kv :: p :: ps
    else if vlt p.1 kv.1 then p :: mapEmplace ps kv
    else p :: ps

/-- `parse_fn::to_map` (parse.hpp:106-118): an odd number of forms throws;
otherwise consecutive pairs are emplaced. -/
def toMap (items : List Value) : PRes (List (Value × Value)) :=
  if items.length % 2 != 0 then .err "Map expects to have even number of elements"
  else .ok (go items [])
where
  /-- The `for (i += 2)` emplace loop. -/
  go : List Value → List (Value × Value) → List (Value × Value)
  | k :: v :: rest, acc => go rest (mapEmplace acc (k, v))
  | _, acc => acc

/-- `parse_fn::parse<int>` (parse.hpp:120-128) via `std::istream`: reads an
optional sign and a run of digits from the start of the text; on overflow the
stream stores the clamped `INT_MAX`/`INT_MIN` (the failure state is ignored
by the caller); with no digits the value stays value-initialised (0). -/
def cppStreamInt (s : String) : Int :=
  let sg := signSplit s.data
  let ds := sg.2.span isDigitC
  let mag : Nat := ds.1.foldl (fun a c => a * 10 + (c.toNat - '0'.toNat)) 0
  let signed : Int := if sg.1 = ['-'] then -(mag : Int) else (mag : Int)
  if signed > 2147483647 then 2147483647
  else if signed < -2147483648 then -2147483648
  else signed

/-- `parse_fn::parse<double>` (parse.hpp:120-128) via `std::istream`, applied
to tokens of the shape `[sign] digits . digits*`: the exact decimal rational
denoted by the literal (the doubles in the theorems below are exactly
representable, so binary rounding is the identity on them). -/
def cppStreamDouble (s : String) : Rat :=
  let sg := signSplit s.data
  let ds := sg.2.span isDigitC
  let ip : Nat := ds.1.foldl (fun a c => a * 10 + (c.toNat - '0'.toNat)) 0
  let fpart : List Char := match ds.2 with
    | '.' :: rest => rest.takeWhile isDigitC
    | _ => []
  let fnum : Nat := fpart.foldl (fun a c => a * 10 + (c.toNat - '0'.toNat)) 0
  let num : Int := ip * 10 ^ fpart.length + fnum
  mkRat (if sg.1 = ['-'] then -num else num) (10 ^ fpart.length)

/-- `parse_fn::read_atom` (parse.hpp:130-174). -/
def readAtom (tok : CTok) : PRes Value :=
  if tok.type == .integer then .ok (Value.integer (cppStreamInt tok.value))
  else if tok.type == .floatingPoint then .ok (Value.floating (cppStreamDouble tok.value))
  else if tok.type == .character then
    if tok.value.length == 1 && isPrintC (tok.value.data.headD ' ') then
      .ok (Value.character (tok.value.data.headD ' '))
    else
      match (characterNames.find? fun p => p.2 == tok.value) with
      | some p => .ok (Value.character p.1)
      | none => .err ("Unhandled character " ++ tok.value)
  else if tok.type == .keyword then .ok (Value.keyword tok.value)
  else if tok.type == .quotedString then .ok (Value.str tok.value)
  else if tok.value == "nil" then .ok Value.nil
  else if tok.value == "true" then .ok (Value.boolean true)
  else if tok.value == "false" then .ok (Value.boolean false)
  else .ok (Value.symbol tok.value)

mutual

/-- `parse_fn::read_from` (parse.hpp:48-88): on an empty token vector
returns a default-constructed (Nil) value; a quote token wraps the next form
in a `quoted_element_t`; `(` and `[` read a List / Vector up to the closing
delimiter; a hash token pops the next token and reads either a Set (`{`) or a
Tagged element (any other token becomes the tag, the following form the
payload); `{` reads a Map; anything else is an atom. -/
def readFrom : Nat → List CTok → PRes (Value × List CTok)
  | 0, _ => .fuelOut
  | _ + 1, [] => .ok (Value.nil, [])
  | n + 1, tok :: rest =>
    if tok.type == .quote then
      (readFrom n rest).bind fun r => .ok (Value.quoted r.1, r.2)
    else if tok.value == "(" then
      (readUntil n rest ")").bind fun r => .ok (Value.list r.1, r.2)
    else if tok.value == "[" then
      (readUntil n rest "]").bind fun r => .ok (Value.vector r.1, r.2)
    else if tok.type == .hash then
      (popFront rest).bind fun pr =>
        if pr.1.value == "\x7b" then
          (readUntil n pr.2 "\x7d").bind fun r => .ok (Value.set (setOfList r.1), r.2)
        else
          (readFrom n pr.2).bind fun r => .ok (Value.tagged pr.1.value r.1, r.2)
    else if tok.value == "\x7b" then
      (readUntil n rest "\x7d").bind fun r =>
        (toMap r.1).bind fun m => .ok (Value.map m, r.2)
    else
      (readAtom tok).bind fun v => .ok (v, rest)
termination_by structural n => n

/-- `parse_fn::read_until` (parse.hpp:90-104): throws on an initially empty
vector; otherwise runs the reading loop. -/
def readUntil : Nat → List CTok → String → PRes (List Value × List CTok)
  | 0, _, _ => .fuelOut
  | _ + 1, [], _ => .err "invalid parentheses"
  | n + 1, tok :: toks, delim => readUntilLoop n (tok :: toks) delim
termination_by structural n => n

/-- The `while` loop of `read_until` (reads forms until the front token
equals the delimiter) followed by the final `pop_front` (which throws if the
tokens ran out before the delimiter appeared). -/
def readUntilLoop : Nat → List CTok → String → PRes (List Value × List CTok)
  | 0, _, _ => .fuelOut
  | _ + 1, [], _ => .err "Cannot pop from empty vector"
  | n + 1, tok :: toks, delim =>
    if tok.value == delim then .ok ([], toks)
    else
      (readFrom n (tok :: toks)).bind fun r =>
        (readUntilLoop n r.2 delim).bind fun rs => .ok (r.1 :: rs.1, rs.2)
termination_by structural n => n

end

/-- The `while (!tokens.empty())` loop of `parse_fn::operator()`
(parse.hpp:17-20): collect top-level forms. -/
def readAll : Nat → List CTok → PRes (List Value)
  | 0, _ => .fuelOut
  | _ + 1, [] => .ok []
  | n + 1, toks =>
    (readFrom (n + 1) toks).bind fun r =>
      (readAll n r.2).bind fun vs => .ok (r.1 :: vs)

/-- The top-level wrapping of `parse_fn::operator()` (parse.hpp:21-32): no
forms give Nil, a single form is returned as is, several forms become a List
headed by the Symbol `do`. -/
def wrapTop : List Value → Value
  | [] => Value.nil
  | [v] => v
  | vs => Value.list (Value.symbol "do" :: vs)

/-- `parse` (parse.hpp:10-175): tokenize, read all top-level forms, wrap.
The fuel bounds the reader's call depth: every reader call either consumes a
token before recursing or recurses exactly once without consuming (a
`read_until` iteration), so twice the token count plus two always suffices. -/
def parse (text : String) : PRes Value :=
  let toks := tokenize text
  (readAll (2 * toks.length + 2) toks).bind fun vs => .ok (wrapTop vs)


/-!
## The older self-contained implementation: `edn.hpp`

`edn.hpp` carries its own value type (`type_t` has fourteen alternatives; a
`tagged_element_t` is just the tag text, there is no quoted variant and a
quote reads as a `(quote ...)` list), its own character-level tokenizer and
its own parser.  It is embedded separately below, prefixed `a` (for
"archaic"). -/

/-- The value model of `edn.hpp` (`value_t`, edn.hpp:460-899), alternatives
in the order of `type_t` (edn.hpp:416-432).  `callable_t` is an opaque
`std::function`; the reader never produces one. -/
inductive AValue : Type where
  | nil : AValue
  | boolean (b : Bool) : AValue
  | integer (n : Int) : AValue
  | floating (q : Rat) : AValue
  | str (s : String) : AValue
  | character (c : Char) : AValue
  | symbol (s : String) : AValue
  | keyword (s : String) : AValue
  | tagged (s : String) : AValue
  | list (xs : List AValue) : AValue
  | vector (xs : List AValue) : AValue
  | set (xs : List AValue) : AValue
  | map (xs : List (AValue × AValue)) : AValue
  | callable : AValue

/-- `type_t` (edn.hpp:416-432), in declared enumeration order. -/
inductive ATy : Type where
  | nil | boolean | integer | floatingPoint | string | character
  | symbol | keyword | taggedElement | list | vector | set | map | callable
deriving DecidableEq

/-- The enumeration rank of a `type_t` value. -/
def ATy.toNat : ATy → Nat
  | .nil => 0 | .boolean => 1 | .integer => 2 | .floatingPoint => 3
  | .string => 4 | .character => 5 | .symbol => 6 | .keyword => 7
  | .taggedElement => 8 | .list => 9 | .vector => 10 | .set => 11
  | .map => 12 | .callable => 13

/-- `value_t::type()` (edn.hpp:508-511): the `m_type` discriminator. -/
def atype : AValue → ATy
  | .nil => .nil
  | .boolean _ => .boolean
  | .integer _ => .integer
  | .floating _ => .floatingPoint
  | .str _ => .string
  | .character _ => .character
  | .symbol _ => .symbol
  | .keyword _ => .keyword
  | .tagged _ => .taggedElement
  | .list _ => .list
  | .vector _ => .vector
  | .set _ => .set
  | .map _ => .map
  | .callable => .callable

mutual

/-- `value_t::operator<` of edn.hpp (858-883): equal discriminators compare
payloads by the switch (callables and nils tie); DIFFERENT discriminators
compare by `lhs.m_type < rhs.m_type` — the enumeration order. -/
def alt : AValue → AValue → Bool
  | .nil, .nil => false
  | .boolean x, .boolean y => !x && y
  | .integer x, .integer y => decide (x < y)
  | .floating x, .floating y => decide (x < y)
  | .str x, .str y => decide (x < y)
  | .character x, .character y => decide (x < y)
  | .symbol x, .symbol y => decide (x < y)
  | .keyword x, .keyword y => decide (x < y)
  | .tagged x, .tagged y => decide (x < y)
  | .list x, .list y => altList x y
  | .vector x, .vector y => altList x y
  | .set x, .set y => altList x y
  | .map x, .map y => altPairs x y
  | .callable, .callable => false
  | a, b => (atype a).toNat < (atype b).toNat
termination_by a b => sizeOf a + sizeOf b

/-- `std::vector<value_t>::operator<` / `std::set<value_t>::operator<` for
edn.hpp values: lexicographic with `operator<`. -/
def altList : List AValue → List AValue → Bool
  | _, [] => false
  | [], _ :: _ => true
  | x :: xs, y :: ys => if alt x y then true else if alt y x then false else altList xs ys
termination_by a b => sizeOf a + sizeOf b

/-- `std::pair<value_t, value_t>::operator<` for edn.hpp values. -/
def apairLt : AValue × AValue → AValue × AValue → Bool
  | (k1, v1), (k2, v2) => alt k1 k2 || (!alt k2 k1 && alt v1 v2)
termination_by a b => sizeOf a + sizeOf b

/-- `std::map<value_t, value_t>::operator<` for edn.hpp values. -/
def altPairs : List (AValue × AValue) → List (AValue × AValue) → Bool
  | _, [] => false
  | [], _ :: _ => true
  | p :: ps, q :: qs => if apairLt p q then true else if apairLt q p then false else altPairs ps qs
termination_by a b => sizeOf a + sizeOf b

end

/-- One `insert` into a `std::set<value_t>` of edn.hpp values (ordered by its
`operator<`; an equivalent element is not inserted). -/
def aSetInsert (l : List AValue) (x : AValue) : List AValue :=
  match l with
  | [] => [x]
  | y :: ys =>
    if alt x y then x :: y :: ys
    else if alt y x then y :: aSetInsert ys x
    else y :: ys

/-- `set_t(v->begin(), v->end())` (edn.hpp:1273): range insertion. -/
def aSetOfList (xs : List AValue) : List AValue := xs.foldl aSetInsert []

/-- One `emplace` into a `std::map<value_t, value_t>` of edn.hpp values (an
entry with an equivalent key is discarded). -/
def aMapEmplace (l : List (AValue × AValue)) (kv : AValue × AValue) :
    List (AValue × AValue) :=
  match l with
  | [] => [kv]
  | p :: ps =>
    if alt kv.1 p.1 then kv :: p :: ps
    else if alt p.1 kv.1 then p :: aMapEmplace ps kv
    else p :: ps

/-- The character-level loop of `tokenize_fn::read_quoted_string`
(edn.hpp:976-999), starting after the opening quote with the accumulated
result (reversed; it was initialised to `"`).  A backslash immediately
followed by a double quote appends a double quote and skips both (the ONLY
escape handled); a double quote is appended and closes the token; any other
character — including every other backslash sequence — is appended
verbatim; running out of input simply ends the token (no error). -/
def aRqsGo : List Char → List Char → List Char × List Char
  | [], acc => (acc.reverse, [])
  | '\\' :: '"' :: rest, acc => aRqsGo rest ('"' :: acc)
  | '"' :: rest, acc => ((acc.reverse) ++ ['"'], rest)
  | c :: rest, acc => aRqsGo rest (c :: acc)

/-- `tokenize_fn::read_quoted_string` (edn.hpp:976-999): called on a text
whose first character is the opening quote; returns the token (including
both quotes when the string is terminated) and the remainder. -/
def aReadQuotedString (text : List Char) : List Char × List Char :=
  aRqsGo (text.drop 1) ['"']

/-- `is_parenthesis` of `tokenize_fn::read_token` (edn.hpp:1003-1004). -/
def aIsParen (c : Char) : Bool :=
  c == '(' || c == ')' || c == '[' || c == ']' || c == '\x7b' || c == '\x7d'

/-- `is_space` of `tokenize_fn::read_token` (edn.hpp:1006): `std::isspace`
or a comma. -/
def aIsSpace (c : Char) : Bool := isSpaceStd c || c == ','

/-- `tokenize_fn::read_token` (edn.hpp:1001-1047): skip a `;` comment up to
the next newline and retry; `#`, `'` and brackets are single-character
tokens; `"` starts a quoted string; otherwise the token runs to the first
whitespace or bracket (the whitespace itself is consumed, a bracket is not);
the token may be empty (when the text starts with whitespace), which the
caller drops.  The fuel bounds the comment-skipping recursion (each skip
consumes at least the `;`, so the text's length always suffices). -/
def aReadToken : Nat → List Char → Option (List Char × List Char)
  | _, [] => none
  | 0, _ :: _ => none
  | f + 1, c :: rest =>
    if c == ';' then aReadToken f (rest.dropWhile fun d => !(d == '\n'))
    else if c == '#' || c == '\x27' || aIsParen c then some ([c], rest)
    else if c == '"' then some (aReadQuotedString (c :: rest))
    else
      let p := (c :: rest).span fun d => !(aIsSpace d || aIsParen d)
      match p.2 with
      | [] => some (c :: rest, [])
      | d :: rest2 => if aIsSpace d then some (p.1, rest2) else some (p.1, d :: rest2)

/-- The `while (true)` loop of edn.hpp's `tokenize_fn::operator()`
(edn.hpp:953-971), with fuel: a `none` from `read_token` ends the loop;
empty tokens are dropped. -/
def aTokenizeLoop : Nat → List Char → List String
  | 0, _ => []
  | f + 1, text =>
    match aReadToken text.length text with
    | none => []
    | some r =>
      if r.1.isEmpty then aTokenizeLoop f r.2
      else String.mk r.1 :: aTokenizeLoop f r.2

/-- `tokenize` of edn.hpp (a token is a plain string, edn.hpp:949). -/
def aTokenize (text : String) : List String :=
  aTokenizeLoop (text.length + 1) text.data

/-- `parse_fn::try_parse<integer_t>` (edn.hpp:1085-1093) via `std::istream`:
reads an optional sign and a maximal digit run; no digits or an overflow of
the 32-bit `int` sets the failure state, in which case `try_parse` yields
nothing. -/
def aTryParseInt (s : String) : Option Int :=
  let sg := signSplit s.data
  let ds := sg.2.span isDigitC
  if ds.1.isEmpty then none
  else
    let mag : Nat := ds.1.foldl (fun a c => a * 10 + (c.toNat - '0'.toNat)) 0
    let v : Int := if sg.1 = ['-'] then -(mag : Int) else (mag : Int)
    if v > 2147483647 || v < -2147483648 then none else some v

/-- `parse_fn::try_parse<floating_point_t>` (edn.hpp:1085-1093) via
`std::istream`: an optional sign, a mantissa (digits with an optional
fractional part — at least one digit overall), and an optional exponent
(`e`/`E`, optional sign, at least one digit, else the extraction fails);
reading stops at the first character that cannot extend the number.  The
result is the exact decimal rational denoted by the accepted prefix. -/
def aTryParseDouble (s : String) : Option Rat :=
  let sg := signSplit s.data
  let ip := sg.2.span isDigitC
  let fres : List Char × List Char :=
    match ip.2 with
    | '.' :: r => (r.takeWhile isDigitC, r.dropWhile isDigitC)
    | other => ([], other)
  if ip.1.isEmpty && fres.1.isEmpty then none
  else
    let mant : Nat :=
      (ip.1 ++ fres.1).foldl (fun a c => a * 10 + (c.toNat - '0'.toNat)) 0
    let mkVal : Int → Option Rat := fun e =>
      let num : Int := if sg.1 = ['-'] then -(mant : Int) else (mant : Int)
      if 0 ≤ e then some (mkRat (num * 10 ^ e.toNat) (10 ^ fres.1.length))
      else some (mkRat num (10 ^ (fres.1.length + (-e).toNat)))
    match fres.2 with
    | 'e' :: r =>
      let esg := signSplit r
      let ed := esg.2.span isDigitC
      if ed.1.isEmpty then none
      else
        let ev : Nat := ed.1.foldl (fun a c => a * 10 + (c.toNat - '0'.toNat)) 0
        mkVal (if esg.1 = ['-'] then -(ev : Int) else (ev : Int))
    | 'E' :: r =>
      let esg := signSplit r
      let ed := esg.2.span isDigitC
      if ed.1.isEmpty then none
      else
        let ev : Nat := ed.1.foldl (fun a c => a * 10 + (c.toNat - '0'.toNat)) 0
        mkVal (if esg.1 = ['-'] then -(ev : Int) else (ev : Int))
    | _ => mkVal 0

/-- `parse_fn::as_string` (edn.hpp:1095-1102): a token that starts and ends
with a double quote yields its middle as the string contents. -/
def aAsString (tok : String) : Option String :=
  match tok.data with
  | [] => none
  | c :: rest =>
    if c == '"' && (c :: rest).getLast (by simp) == '"' then
      some (String.mk ((c :: rest).drop 1 |>.dropLast))
    else none

/-- `parse_fn::as_integer` (edn.hpp:1104-1111): no dot in the token, then
stream extraction. -/
def aAsInteger (tok : String) : Option Int :=
  if tok.data.contains '.' then none else aTryParseInt tok

/-- `parse_fn::as_character` (edn.hpp:1145-1163): a token starting with a
backslash; its remainder is either a named character or one printable
character. -/
def aAsCharacter (tok : String) : Option Char :=
  match tok.data with
  | '\\' :: rest =>
    match (characterNames.find? fun p => p.2.data == rest) with
    | some p => some p.1
    | none =>
      match rest with
      | [c] => if isPrintC c then some c else none
      | _ => none
  | _ => none

/-- `parse_fn::read_atom` (edn.hpp:1183-1218): boolean and nil words, then
string, keyword, integer, floating point, character, and finally any token
as a symbol. -/
def aReadAtom (tok : String) : PRes AValue :=
  if tok == "true" then .ok (.boolean true)
  else if tok == "false" then .ok (.boolean false)
  else if tok == "nil" then .ok .nil
  else match aAsString tok with
  | some s => .ok (.str s)
  | none =>
    match tok.data with
    | ':' :: rest => .ok (.keyword (String.mk rest))
    | _ =>
      match aAsInteger tok with
      | some n => .ok (.integer n)
      | none =>
        match aTryParseDouble tok with
        | some q => .ok (.floating q)
        | none =>
          match aAsCharacter tok with
          | some c => .ok (.character c)
          | none => .ok (.symbol tok)

/-- The emplace loop of edn.hpp's `parse_fn::to_map` (edn.hpp:1220-1228).
There is no size check: with an odd number of items the final round reads
`items[i + 1]` one past the end of the vector — undefined behaviour,
modelled as `oob`. -/
def aToMapGo : List AValue → List (AValue × AValue) → PRes (List (AValue × AValue))
  | [], acc => .ok acc
  | [_], _ => .oob
  | k :: v :: rest, acc => aToMapGo rest (aMapEmplace acc (k, v))

/-- `parse_fn::to_map` of edn.hpp. -/
def aToMap (items : List AValue) : PRes (List (AValue × AValue)) :=
  aToMapGo items []

mutual

/-- `parse_fn::read_from` of edn.hpp (1246-1297), with the `tagged` flag: a
quote token wraps the next form in a `(quote ...)` List; `(` and `[` read a
List / Vector; `#` reads the next form with `tagged = true` and turns a
Vector into a Set, a Symbol into a (payload-less) tagged element, and
anything else into an error; `\x7b` reads entries up to `\x7d` and produces a
Map — unless `tagged` is set, in which case it produces a Vector of the
items; anything else is an atom. -/
def aReadFrom : Nat → List String → Bool → PRes (AValue × List String)
  | 0, _, _ => .fuelOut
  | _ + 1, [], _ => .ok (.nil, [])
  | n + 1, front :: toks, tagged =>
    if front == "\x27" then
      (aReadFrom n toks false).bind fun r =>
        .ok (.list [.symbol "quote", r.1], r.2)
    else if front == "(" then
      (aReadUntil n toks ")").bind fun r => .ok (.list r.1, r.2)
    else if front == "[" then
      (aReadUntil n toks "]").bind fun r => .ok (.vector r.1, r.2)
    else if front == "#" then
      (aReadFrom n toks true).bind fun r =>
        match r.1 with
        | .vector xs => .ok (.set (aSetOfList xs), r.2)
        | .symbol s => .ok (.tagged s, r.2)
        | _ => .err "# must be followed by \x7b...\x7d (for set) or by symbol (for tagged element)"
    else if front == "\x7b" then
      (aReadUntil n toks "\x7d").bind fun r =>
        if !tagged then (aToMap r.1).bind fun m => .ok (.map m, r.2)
        else .ok (.vector r.1, r.2)
    else
      (aReadAtom front).bind fun v => .ok (v, toks)
termination_by structural n => n

/-- `parse_fn::read_until` of edn.hpp (1230-1244). -/
def aReadUntil : Nat → List String → String → PRes (List AValue × List String)
  | 0, _, _ => .fuelOut
  | _ + 1, [], _ => .err "invalid parentheses"
  | n + 1, tok :: toks, delim => aReadUntilLoop n (tok :: toks) delim
termination_by structural n => n

/-- The `while` loop of edn.hpp's `read_until` followed by the final
`pop_front`. -/
def aReadUntilLoop : Nat → List String → String → PRes (List AValue × List String)
  | 0, _, _ => .fuelOut
  | _ + 1, [], _ => .err "Cannot pop from empty vector"
  | n + 1, tok :: toks, delim =>
    if tok == delim then .ok ([], toks)
    else
      (aReadFrom n (tok :: toks) false).bind fun r =>
        (aReadUntilLoop n r.2 delim).bind fun rs => .ok (r.1 :: rs.1, rs.2)
termination_by structural n => n

end

/-- The `while (!tokens.empty())` collection loop of edn.hpp's
`parse_fn::operator()` (1056-1061). -/
def aReadAll : Nat → List String → PRes (List AValue)
  | 0, _ => .fuelOut
  | _ + 1, [] => .ok []
  | n + 1, toks =>
    (aReadFrom (n + 1) toks false).bind fun r =>
      (aReadAll n r.2).bind fun vs => .ok (r.1 :: vs)

/-- The top-level wrapping of edn.hpp's `parse_fn::operator()` (1062-1069):
exactly one form is returned as is; ANY other number of forms — including
none — becomes a List headed by the Symbol `do`. -/
def aWrapTop : List AValue → AValue
  | [v] => v
  | vs => .list (.symbol "do" :: vs)

/-- `parse` of edn.hpp (1052-1300), fuelled like `parse`. -/
def aParse (text : String) : PRes AValue :=
  let toks := aTokenize text
  (aReadAll (2 * toks.length + 2) toks).bind fun vs => .ok (aWrapTop vs)


/-!
## The evaluator: `evaluate.hpp`

The tree-walking evaluator over `value.hpp` values.  C++ mutable state is
made explicit: all `stack_t` frames ever constructed live in a store (a list
of frames addressed by index — the model of pointers), `stack_t*`/`stack_t&`
become indices, and every evaluator function threads the store.  The
evaluator's recursion is not structural (a `clojure_t` body is evaluated on
invocation), so every function takes explicit fuel, consumed one unit per
call; the concrete evaluations below supply ample fuel and general theorems
quantify over it.  Where C++ leaves the evaluation order of two function
arguments unspecified (e.g. the two arguments of `stack_t::insert` in
`eval_def`), the model fixes left-to-right order; no claim depends on the
choice. -/

/-- One `stack_t` (evaluate.hpp:10-49): the `frame` binding map (carried as
an association list — only `find` is ever applied to it, so the `std::map`
ordering is unobservable) and the `outer` pointer (an index into the store,
`none` for null). -/
structure Frame : Type where
  entries : List (String × Value)
  parent : Option Nat

/-- The store of all frames ever constructed, addressed by index. -/
abbrev Store := List Frame

/-- `std::map::emplace` on a frame's binding map: inserts only when the
symbol is ABSENT; an existing binding is left unchanged. -/
def frameEmplace (es : List (String × Value)) (k : String) (v : Value) :
    List (String × Value) :=
  if es.any fun p => p.1 == k then es else es ++ [(k, v)]

/-- `stack_t::insert` (evaluate.hpp:24-28): `frame.emplace(symbol, v)` on
the frame at `idx`, then `return v` — the insert returns its argument
whether or not the map changed.  (The returned value is used literally at
the call sites of the model.) -/
def stackInsert (st : Store) (idx : Nat) (k : String) (v : Value) : Store :=
  match st.get? idx with
  | some fr => st.set idx ⟨frameEmplace fr.entries k v, fr.parent⟩
  | none => st

/-- The recursion of `stack_t::get` (evaluate.hpp:30-43) with fuel: search
the frame's map, then follow `outer`.  Frames only ever point to
earlier-constructed frames, so a fuel of the store's size suffices. -/
def stackGetF : Nat → Store → Nat → String → Option Value
  | 0, _, _, _ => none
  | f + 1, st, idx, k =>
    match st.get? idx with
    | none => none
    | some fr =>
      match fr.entries.find? fun p => p.1 == k with
      | some p => some p.2
      | none =>
        match fr.parent with
        | none => none
        | some up => stackGetF f st up k

/-- `stack_t::get`: a found value, or `none` standing for the thrown
unrecognized-symbol error (raised by the caller with the symbol's name). -/
def stackGet (st : Store) (idx : Nat) (k : String) : Option Value :=
  stackGetF (st.length + 1) st idx k

/-- The message of `std::vector::at` on an out-of-range index
(`std::out_of_range`; the exact text is library-defined — this fixed text
stands in for it, and no claim depends on the wording). -/
def vectorAtMsg : String := "vector::at: index out of range"

/-- `std::vector::at`: bounds-checked access. -/
def vecAt (xs : List Value) (i : Nat) : PRes Value :=
  match xs.get? i with
  | some v => .ok v
  | none => .err vectorAtMsg

/-- Whether a value holds the `list_t` alternative (`v.list().has_value()`). -/
def isList : Value → Bool
  | .list _ => true
  | _ => false

/-- Whether a value holds the `vector_t` alternative. -/
def isVector : Value → Bool
  | .vector _ => true
  | _ => false

/-- The accumulation loop of `clojure_t::overload_t::params`
(evaluate.hpp:66-87): `current` starts at the mandatory vector and is
redirected to the variadic vector by every `&` symbol; other symbols are
pushed onto the current vector; a non-Symbol element makes
`*v.symbol()` throw a type mismatch. -/
def overloadParamsGo : List Value → Bool → List String → List String →
    PRes (List String × Option String)
  | [], _, mand, var => .ok (mand, var.head?)
  | v :: rest, inVar, mand, var =>
    match v with
    | .symbol s =>
      if s == "&" then overloadParamsGo rest true mand var
      else if inVar then overloadParamsGo rest true mand (var ++ [s])
      else overloadParamsGo rest false (mand ++ [s]) var
    | other => .err ("Expected type symbol, actual " ++ (vtype other).name)

/-- `clojure_t::overload_t::params` (evaluate.hpp:66-87): iterating
`*parameters.vector()` (a type mismatch is thrown when the stored parameters
value is not a Vector); the result is the mandatory symbols and, when the
variadic vector is non-empty, its FIRST element as the rest symbol. -/
def overloadParams : Value → PRes (List String × Option String)
  | .vector xs => overloadParamsGo xs false [] []
  | p => .err ("Expected type vector, actual " ++ (vtype p).name)

/-- Specification mirror of `params` on an all-Symbol parameter list, for
stating its behaviour: mandatory names are those before the first `&`; the
rest symbol is the first non-`&` name after the first `&`, if any. -/
def paramsSpec (names : List String) : List String × Option String :=
  (names.takeWhile fun s => !(s == "&"),
   ((names.dropWhile fun s => !(s == "&")).filter fun s => !(s == "&")).head?)

/-- `evaluate_fn::create_overload` (evaluate.hpp:158-162):
`input.at(0).vector().value()` (throwing out-of-range on an empty input, a
type mismatch on a non-Vector), stored with the remaining forms as the body. -/
def createOverload (input : List Value) : PRes (Value × List Value) :=
  match input with
  | [] => .err vectorAtMsg
  | p :: body =>
    match p with
    | .vector xs => .ok (.vector xs, body)
    | other => .err ("Expected type vector, actual " ++ (vtype other).name)

/-- The overload-collection loop of `evaluate_fn::eval_callable(input,
stack)` (evaluate.hpp:166-177), used when every input form is a List. -/
def collectOverloads : List Value → PRes (List (Value × List Value))
  | [] => .ok []
  | v :: rest =>
    match v with
    | .list xs =>
      (createOverload xs).bind fun ov =>
        (collectOverloads rest).bind fun ovs => .ok (ov :: ovs)
    | other => .err ("Expected type list, actual " ++ (vtype other).name)

/-- `evaluate_fn::eval_callable(input, stack)` (evaluate.hpp:164-179): if
ALL forms are Lists (vacuously so for an empty input), each List is one
overload; otherwise the whole input is a single overload.  The built
Callable captures the current stack by reference (the index). -/
def evalMakeCallable (input : List Value) (sIdx : Nat) : PRes Value :=
  if input.all isList then
    (collectOverloads input).bind fun ovs => .ok (.callable ovs sIdx)
  else
    (createOverload input).bind fun ov => .ok (.callable [ov] sIdx)

/-- `evaluate_fn::eval_quote` (evaluate.hpp:270-273): returns `input[0]`
through the UNCHECKED `std::vector::operator[]` — on an empty operand list
this reads past the end of the vector (undefined behaviour, `oob`), it does
not throw. -/
def evalQuote (input : List Value) (st : Store) : PRes (Value × Store) :=
  match input with
  | [] => .oob
  | x :: _ => .ok (x, st)

/-- `evaluate_fn::eval_fn` builds the callable (evaluate.hpp:181-184). -/
def evalFn (input : List Value) (sIdx : Nat) (st : Store) : PRes (Value × Store) :=
  (evalMakeCallable input sIdx).bind fun c => .ok (c, st)

/-- `evaluate_fn::eval_defn` (evaluate.hpp:186-189): `*input.at(0).symbol()`
then the callable over the remaining forms; `insert` returns the callable. -/
def evalDefn (input : List Value) (sIdx : Nat) (st : Store) : PRes (Value × Store) :=
  (vecAt input 0).bind fun s0 =>
    match s0 with
    | .symbol name =>
      (evalMakeCallable (input.drop 1) sIdx).bind fun c =>
        .ok (c, stackInsert st sIdx name c)
    | other => .err ("Expected type symbol, actual " ++ (vtype other).name)

/-- The binding loop of `clojure_t::operator()` for the mandatory symbols:
`new_stack.insert(mandatory.at(i), args.at(i))` in order. -/
def bindArgs (st : Store) (idx : Nat) : List String → List Value → Store
  | n :: ns, v :: vs => bindArgs (stackInsert st idx n v) idx ns vs
  | _, _ => st

mutual

/-- `evaluate_fn::do_eval` (evaluate.hpp:225-268): a quoted element strips
to its payload; a Symbol is looked up (throwing the unrecognized-symbol
error on a miss); a List dispatches to `eval_list`; Vector, Set and Map
evaluate their elements (a Set re-inserts results in order, a Map re-emplaces
evaluated key/value pairs); everything else evaluates to itself. -/
def doEval : Nat → Value → Nat → Store → PRes (Value × Store)
  | 0, _, _, _ => .fuelOut
  | f + 1, v, sIdx, st =>
    match v with
    | .quoted e => .ok (e, st)
    | .symbol s =>
      match stackGet st sIdx s with
      | some val => .ok (val, st)
      | none => .err ("Unrecognized symbol `" ++ s ++ "`")
    | .list xs => evalList f xs sIdx st
    | .vector xs => (evalArgs f xs sIdx st).bind fun r => .ok (.vector r.1, r.2)
    | .set xs => (evalArgs f xs sIdx st).bind fun r => .ok (.set (setOfList r.1), r.2)
    | .map xs => (evalMapPairs f xs sIdx st []).bind fun r => .ok (.map r.1, r.2)
    | other => .ok (other, st)
termination_by structural f => f

/-- `evaluate_fn::eval_list` (evaluate.hpp:275-305): an empty List is
returned as is; a Symbol head naming one of the eight special forms
dispatches to its handler with the raw tail; anything else is ordinary
application. -/
def evalList : Nat → List Value → Nat → Store → PRes (Value × Store)
  | 0, _, _, _ => .fuelOut
  | f + 1, input, sIdx, st =>
    match input with
    | [] => .ok (.list [], st)
    | head :: tail =>
      match head with
      | .symbol s =>
        if s == "quote" then evalQuote tail st
        else if s == "let" then evalLet f tail sIdx st
        else if s == "def" then evalDef f tail sIdx st
        else if s == "fn" then evalFn tail sIdx st
        else if s == "defn" then evalDefn tail sIdx st
        else if s == "if" then evalIf f tail sIdx st
        else if s == "cond" then evalCond f tail sIdx st
        else if s == "do" then evalBlock f tail sIdx st
        else evalApply f (.symbol s) tail sIdx st
      | head => evalApply f head tail sIdx st
termination_by structural f => f

/-- `evaluate_fn::eval_block` (evaluate.hpp:133-140) and the textually
identical `eval_do` (evaluate.hpp:307-314): `std::accumulate` with
`do_eval`, i.e. evaluate the forms in order and return the last result (or
a default-constructed Nil when there are none). -/
def evalBlock : Nat → List Value → Nat → Store → PRes (Value × Store)
  | 0, _, _, _ => .fuelOut
  | _ + 1, [], _, st => .ok (.nil, st)
  | f + 1, [x], sIdx, st => doEval f x sIdx st
  | f + 1, x :: xs, sIdx, st => (doEval f x sIdx st).bind fun r => evalBlock f xs sIdx r.2
termination_by structural f => f

/-- `evaluate_fn::eval_boolean` (evaluate.hpp:191-194):
`*do_eval(value, stack).boolean()` — a type mismatch is thrown when the
result is not a Boolean. -/
def evalBoolean : Nat → Value → Nat → Store → PRes (Bool × Store)
  | 0, _, _, _ => .fuelOut
  | f + 1, v, sIdx, st =>
    (doEval f v sIdx st).bind fun r =>
      match r.1 with
      | .boolean b => .ok (b, r.2)
      | other => .err ("Expected type boolean, actual " ++ (vtype other).name)
termination_by structural f => f

/-- `evaluate_fn::eval_if` (evaluate.hpp:196-199): evaluate `input.at(0)` as
a Boolean, then evaluate ONLY the selected branch (`at(1)` or `at(2)`). -/
def evalIf : Nat → List Value → Nat → Store → PRes (Value × Store)
  | 0, _, _, _ => .fuelOut
  | f + 1, input, sIdx, st =>
    (vecAt input 0).bind fun c =>
      (evalBoolean f c sIdx st).bind fun br =>
        if br.1 then (vecAt input 1).bind fun t => doEval f t sIdx br.2
        else (vecAt input 2).bind fun e => doEval f e sIdx br.2
termination_by structural f => f

/-- `evaluate_fn::eval_cond` (evaluate.hpp:201-211): tests in order; a test
equal (by `value_t::operator==`) to the keyword `:else`, or evaluating to
Boolean true, selects `input.at(i + 1)`; no match gives Nil. -/
def evalCond : Nat → List Value → Nat → Store → PRes (Value × Store)
  | 0, _, _, _ => .fuelOut
  | f + 1, input, sIdx, st =>
    match input with
    | [] => .ok (.nil, st)
    | test :: rest =>
      if veq test (.keyword "else") then
        (vecAt (test :: rest) 1).bind fun e => doEval f e sIdx st
      else
        (evalBoolean f test sIdx st).bind fun br =>
          if br.1 then (vecAt (test :: rest) 1).bind fun e => doEval f e sIdx br.2
          else evalCond f (rest.drop 1) sIdx br.2
termination_by structural f => f

/-- The binding loop of `evaluate_fn::eval_let` (evaluate.hpp:146-150):
`bindings.at(i).symbol().value()` then `do_eval(bindings.at(i + 1),
new_stack)` — each binding is evaluated in the NEW scope and so sees the
earlier ones. -/
def evalLetLoop : Nat → List Value → Nat → Store → PRes Store
  | 0, _, _, _ => .fuelOut
  | _ + 1, [], _, st => .ok st
  | _ + 1, [k], _, _ =>
    match k with
    | .symbol _ => .err vectorAtMsg
    | other => .err ("Expected type symbol, actual " ++ (vtype other).name)
  | f + 1, k :: v :: rest, idx, st =>
    match k with
    | .symbol s =>
      (doEval f v idx st).bind fun r =>
        evalLetLoop f rest idx (stackInsert r.2 idx s r.1)
    | other => .err ("Expected type symbol, actual " ++ (vtype other).name)
termination_by structural f => f

/-- `evaluate_fn::eval_let` (evaluate.hpp:142-151): `input.at(0)` must hold
a Vector of bindings; a fresh scope is pushed, the bindings are installed,
and the remaining forms run as a block in the new scope. -/
def evalLet : Nat → List Value → Nat → Store → PRes (Value × Store)
  | 0, _, _, _ => .fuelOut
  | f + 1, input, sIdx, st =>
    (vecAt input 0).bind fun b0 =>
      match b0 with
      | .vector bindings =>
        (evalLetLoop f bindings st.length (st ++ [⟨[], some sIdx⟩])).bind fun st2 =>
          evalBlock f (input.drop 1) st.length st2
      | other => .err ("Expected type vector, actual " ++ (vtype other).name)
termination_by structural f => f

/-- `evaluate_fn::eval_def` (evaluate.hpp:153-156):
`stack.insert(input.at(0).symbol().value(), do_eval(input.at(1), stack))` —
and `insert` RETURNS the evaluated value (even when an existing binding was
left in place by `emplace`). -/
def evalDef : Nat → List Value → Nat → Store → PRes (Value × Store)
  | 0, _, _, _ => .fuelOut
  | f + 1, input, sIdx, st =>
    (vecAt input 0).bind fun s0 =>
      match s0 with
      | .symbol name =>
        (vecAt input 1).bind fun e =>
          (doEval f e sIdx st).bind fun r =>
            .ok (r.1, stackInsert r.2 sIdx name r.1)
      | other => .err ("Expected type symbol, actual " ++ (vtype other).name)
termination_by structural f => f

/-- The argument-evaluation loop of `evaluate_fn::eval_callable(head, tail,
stack)` (evaluate.hpp:216-221), also the element loops of Vector and Set
evaluation: left-to-right `do_eval`. -/
def evalArgs : Nat → List Value → Nat → Store → PRes (List Value × Store)
  | 0, _, _, _ => .fuelOut
  | _ + 1, [], _, st => .ok ([], st)
  | f + 1, x :: xs, sIdx, st =>
    (doEval f x sIdx st).bind fun r =>
      (evalArgs f xs sIdx r.2).bind fun rs => .ok (r.1 :: rs.1, rs.2)
termination_by structural f => f

/-- The entry loop of Map evaluation (evaluate.hpp:258-266): for each entry,
evaluate the key then the value and `emplace` the pair. -/
def evalMapPairs : Nat → List (Value × Value) → Nat → Store →
    List (Value × Value) → PRes (List (Value × Value) × Store)
  | 0, _, _, _, _ => .fuelOut
  | _ + 1, [], _, st, acc => .ok (acc, st)
  | f + 1, (k, v) :: rest, sIdx, st, acc =>
    (doEval f k sIdx st).bind fun kr =>
      (doEval f v sIdx kr.2).bind fun vr =>
        evalMapPairs f rest sIdx vr.2 (mapEmplace acc (kr.1, vr.1))
termination_by structural f => f

/-- `evaluate_fn::eval_callable(head, tail, stack)` (evaluate.hpp:213-223):
evaluate the head (a type mismatch is thrown unless it yields a Callable),
evaluate the arguments left to right, invoke. -/
def evalApply : Nat → Value → List Value → Nat → Store → PRes (Value × Store)
  | 0, _, _, _, _ => .fuelOut
  | f + 1, head, tail, sIdx, st =>
    (doEval f head sIdx st).bind fun hr =>
      match hr.1 with
      | .callable ovs closIdx =>
        (evalArgs f tail sIdx hr.2).bind fun ar =>
          invokeClosure f ovs closIdx ar.1 ar.2
      | other => .err ("Expected type callable, actual " ++ (vtype other).name)
termination_by structural f => f

/-- `clojure_t::operator()` (evaluate.hpp:94-130): push ONE fresh scope
chained to the closure's captured stack, then try the overloads in order. -/
def invokeClosure : Nat → List (Value × List Value) → Nat → List Value → Store →
    PRes (Value × Store)
  | 0, _, _, _, _ => .fuelOut
  | f + 1, overloads, closIdx, args, st =>
    invokeLoop f overloads st.length args (st ++ [⟨[], some closIdx⟩])
termination_by structural f => f

/-- The overload loop of `clojure_t::operator()`: for each overload compute
`params()` (its exceptions escape here, BEFORE any match test); a fixed
overload matches iff the argument count equals the mandatory count, a
variadic one iff it strictly EXCEEDS the mandatory count (`args.size() >
mandatory.size()`, evaluate.hpp:110) — in which case the mandatory symbols
are bound in order and the surplus arguments are bound as a List to the rest
symbol; with no matching overload the no-overload error is thrown. -/
def invokeLoop : Nat → List (Value × List Value) → Nat → List Value → Store →
    PRes (Value × Store)
  | 0, _, _, _, _ => .fuelOut
  | _ + 1, [], _, args, _ =>
    .err ("could not resolve function overload for " ++ toString args.length ++ " arg(s)")
  | f + 1, (params, body) :: rest, newIdx, args, st =>
    (overloadParams params).bind fun mv =>
      match mv.2 with
      | none =>
        if args.length == mv.1.length then
          evalBlock f body newIdx (bindArgs st newIdx mv.1 args)
        else invokeLoop f rest newIdx args st
      | some r =>
        if args.length > mv.1.length then
          evalBlock f body newIdx
            (stackInsert (bindArgs st newIdx mv.1 (args.take mv.1.length)) newIdx r
              (.list (args.drop mv.1.length)))
        else invokeLoop f rest newIdx args st
termination_by structural f => f

end

/-- `evaluate_fn::eval` (evaluate.hpp:316-326): the SINGLE try/catch around
`do_eval` — a thrown error is re-thrown wrapped with the formatted form;
recursive evaluation inside `do_eval` never passes through this wrapper.
(`oob` is undefined behaviour, not an exception, and is not caught.) -/
def evalTop (f : Nat) (v : Value) (sIdx : Nat) (st : Store) : PRes (Value × Store) :=
  match doEval f v sIdx st with
  | .err m => .err ("Error on evaluating `" ++ formatValue v ++ "`: " ++ m)
  | other => other

/-- The value of an evaluation result, discarding the store (for stating
results whose final store is irrelevant). -/
def resValue : PRes (Value × Store) → Option Value
  | .ok r => some r.1
  | _ => none

/-- The number of positions at which the (non-empty) pattern occurs in the
text. -/
def countOccs (needle hay : String) : Nat :=
  go hay.data
where
  /-- Scan over every suffix of the text. -/
  go : List Char → Nat
  | [] => 0
  | c :: rest => (if needle.data.isPrefixOf (c :: rest) then 1 else 0) + go rest

/-!
## Helper lemmas
-/

set_option maxHeartbeats 2000000 in
/-- `lt_visitor` on two values of different discriminators always lands in
the template catch-all and returns `false`: values of distinct variants are
never ordered. -/
theorem vlt_cross (a b : Value) (h : vtype a ≠ vtype b) : vlt a b = false := by
  rw [vlt.eq_def]
  split <;> first | rfl | exact absurd rfl h

set_option maxHeartbeats 2000000 in
/-- `eq_visitor` on two values of different discriminators always lands in
the template catch-all and returns `false`: values of distinct variants are
never equal. -/
theorem veq_cross (a b : Value) (h : vtype a ≠ vtype b) : veq a b = false := by
  rw [veq.eq_def]
  split <;> first | rfl | exact absurd rfl h


/-- The character-copy loop of `read_quoted_string` moves any character that
is neither a quote nor a backslash unchanged onto the accumulator. -/
theorem aRqsGo_catchall (c : Char) (s acc : List Char) (hq : ¬c = '"') (hb : ¬c = '\\') :
    aRqsGo (c :: s) acc = aRqsGo s (c :: acc) := by
  rw [aRqsGo.eq_def]
  split
  · simp_all
  · simp_all
  · simp_all
  · rename_i heq
    injection heq with h1 h2
    subst h1
    subst h2
    rfl

/-- A quote-free, backslash-free prefix of a quoted-string body is copied
verbatim onto the accumulator. -/
theorem aRqsGo_clean (s : List Char) (tail acc : List Char)
    (hq : '"' ∉ s) (hb : '\\' ∉ s) :
    aRqsGo (s ++ tail) acc = aRqsGo tail (s.reverse ++ acc) := by
  induction s generalizing acc with
  | nil => simp
  | cons c cs ih =>
    simp only [List.mem_cons, not_or] at hq hb
    rw [List.cons_append,
      aRqsGo_catchall c (cs ++ tail) acc (fun h => hq.1 h.symm) (fun h => hb.1 h.symm)]
    rw [ih (c :: acc) hq.2 hb.2]
    simp


/-- The `params` loop in variadic mode: every remaining symbol that is not a
`&` is pushed onto the variadic vector. -/
theorem overloadParamsGo_true (names : List String) (mand var : List String) :
    overloadParamsGo (names.map Value.symbol) true mand var
      = .ok (mand, (var ++ names.filter fun s => !(s == "&")).head?) := by
  induction names generalizing var with
  | nil => simp [overloadParamsGo]
  | cons n ns ih =>
    by_cases h : n = "&"
    · simp [overloadParamsGo, h, ih]
    · simp [overloadParamsGo, h, ih, List.filter_cons, List.append_assoc]

/-- The `params` loop in mandatory mode: symbols before the first `&` are
mandatory, the rest symbol is the first non-`&` symbol after it. -/
theorem overloadParamsGo_false (names : List String) (mand var : List String) :
    overloadParamsGo (names.map Value.symbol) false mand var
      = .ok (mand ++ (names.takeWhile fun s => !(s == "&")),
        (var ++ ((names.dropWhile fun s => !(s == "&")).filter fun s => !(s == "&"))).head?) := by
  induction names generalizing mand with
  | nil => simp [overloadParamsGo]
  | cons n ns ih =>
    by_cases h : n = "&"
    · simp [overloadParamsGo, h, List.takeWhile_cons, List.dropWhile_cons,
        List.filter_cons, overloadParamsGo_true]
    · simp [overloadParamsGo, h, ih, List.takeWhile_cons, List.dropWhile_cons,
        List.append_assoc]

/-- `params()` on an all-Symbol parameter vector never throws and computes
`paramsSpec`: in particular several `&` symbols or a trailing `&` are
accepted without any error. -/
theorem overloadParams_symbols (names : List String) :
    overloadParams (.vector (names.map Value.symbol)) = .ok (paramsSpec names) := by
  simp [overloadParams, overloadParamsGo_false, paramsSpec]

/-- `params()` throws the type mismatch of `*v.symbol()` at the first
non-Symbol element of the parameter vector. -/
theorem overloadParamsGo_nonsymbol (pre : List String) (x : Value) (post : List Value)
    (mode : Bool) (mand var : List String) (hx : vtype x ≠ VType.symbol) :
    overloadParamsGo (pre.map Value.symbol ++ x :: post) mode mand var
      = .err ("Expected type symbol, actual " ++ (vtype x).name) := by
  induction pre generalizing mode mand var with
  | nil =>
    cases x <;> simp_all [overloadParamsGo, vtype]
  | cons p ps ih =>
    by_cases h : p = "&" <;> cases mode <;> simp [overloadParamsGo, h, ih]

/-- `takeWhile` over an append whose first part satisfies the predicate. -/
theorem takeWhile_app (p : String → Bool) (l l' : List String) (h : ∀ x ∈ l, p x) :
    (l ++ l').takeWhile p = l ++ l'.takeWhile p := by
  induction l with
  | nil => simp
  | cons a as ih => simp_all [List.takeWhile_cons]

/-- `dropWhile` over an append whose first part satisfies the predicate. -/
theorem dropWhile_app (p : String → Bool) (l l' : List String) (h : ∀ x ∈ l, p x) :
    (l ++ l').dropWhile p = l'.dropWhile p := by
  induction l with
  | nil => simp
  | cons a as ih => simp_all [List.dropWhile_cons]

/-- The parameter shape `[n₁ … nₖ & r]` has mandatory symbols `n₁ … nₖ` and
rest symbol `r`. -/
theorem paramsSpec_variadic (names : List String) (r : String)
    (h1 : "&" ∉ names) (h2 : r ≠ "&") :
    paramsSpec (names ++ ["&", r]) = (names, some r) := by
  have hall : ∀ x ∈ names, (!(x == "&")) = true := by
    intro x hx
    simp only [Bool.not_eq_eq_eq_not, Bool.not_true, beq_eq_false_iff_ne]
    exact fun he => h1 (he ▸ hx)
  simp [paramsSpec, takeWhile_app _ _ _ hall, dropWhile_app _ _ _ hall,
    List.takeWhile_cons, List.dropWhile_cons, List.filter_cons, h2]

/-!
## Claim theorems
-/

/-- C1, counterexample: for `a = Integer 0` and `b = String ""` the
discriminators differ and the Integer variant precedes the String variant in
the enumeration order, yet none of `a < b`, `a == b`, `b < a` holds — the
comparison is not a total order and values of different discriminators are
not ordered by the enumeration order. -/
theorem c1_counterexample :
    vlt (Value.integer 0) (Value.str "") = false ∧
    veq (Value.integer 0) (Value.str "") = false ∧
    vlt (Value.str "") (Value.integer 0) = false ∧
    VType.toNat (vtype (Value.integer 0)) < VType.toNat (vtype (Value.str "")) := by
  refine ⟨by simp [vlt], rfl, by simp [vlt], by decide⟩

/-- C1, amended: whenever two Values have different discriminators, none of
`a < b`, `a == b`, `b < a` holds — `lt_visitor` and `eq_visitor` fall into
their cross-variant catch-all returning `false`, so values of distinct
variants are mutually unordered and unequal; they are not ordered by the
fixed enumeration order of the variants, and trichotomy fails for every such
pair. -/
theorem c1_order (a b : Value) (h : vtype a ≠ vtype b) :
    vlt a b = false ∧ vlt b a = false ∧ veq a b = false :=
  ⟨vlt_cross a b h, vlt_cross b a (Ne.symm h), veq_cross a b h⟩

/-- C1, witness: instantiating `c1_order` at `Integer 0` and `String "hi"`. -/
theorem c1_order_witness :
    vtype (Value.integer 0) ≠ vtype (Value.str "hi") ∧
    (vlt (Value.integer 0) (Value.str "hi") = false ∧
      vlt (Value.str "hi") (Value.integer 0) = false ∧
      veq (Value.integer 0) (Value.str "hi") = false) :=
  ⟨by decide, c1_order (Value.integer 0) (Value.str "hi") (by decide)⟩

/-- C5: in `value.hpp` the `eq_visitor` and `lt_visitor` cases for
`tagged_element_t` compare only the boxed payloads and ignore the tags, so
two Tagged values with equal payloads but different tags (`#a 1` and `#b 1`)
compare EQUAL (and neither is less than the other) — contradicting the claim
that Tagged equality requires equal tags and that ordering is lexicographic
over (tag, payload). -/
theorem c5_tagged_ignores_tag :
    veq (Value.tagged "a" (Value.integer 1)) (Value.tagged "b" (Value.integer 1)) = true ∧
    vlt (Value.tagged "a" (Value.integer 1)) (Value.tagged "b" (Value.integer 1)) = false ∧
    vlt (Value.tagged "b" (Value.integer 1)) (Value.tagged "a" (Value.integer 1)) = false ∧
    "a" ≠ "b" := by
  refine ⟨rfl, by simp [vlt], by simp [vlt], by decide⟩


/-- C2: the round-trip property fails on Floats, exhibited end-to-end on the
embedded reader and formatter.  `parse "1.0"` produces the reader-producible
Value `Float 1.0`; its readable-mode formatting is `"1"` (the default
ostream float output drops the decimal point); parsing that text yields
`Integer 1`; and `Integer 1` is not equal to `Float 1.0` (both directions),
because equality of values with different discriminators is `false`.  Hence
`parse (format v) ≠ v` for the reader-producible `v = Float 1.0`, violating
the spec's round-trip invariant. -/
theorem c2_float_roundtrip_bug :
    parse "1.0" = .ok (Value.floating 1) ∧
    formatValue (Value.floating 1) = "1" ∧
    parse "1" = .ok (Value.integer 1) ∧
    veq (Value.integer 1) (Value.floating 1) = false ∧
    veq (Value.floating 1) (Value.integer 1) = false :=
  ⟨rfl, rfl, rfl, rfl, rfl⟩


/-- C8, counterexample: lexing the six-character input `"a\nb"` (quote, a,
backslash, n, b, quote), `read_quoted_string` returns the token with the
backslash and the `n` kept as two separate characters — the `\n` escape is
NOT processed into a newline — and an unterminated string `"ab` is returned
as a token covering the rest of the input with no error raised at all (the
function has no error path). -/
theorem c8_counterexample :
    aReadQuotedString "\"a\\nb\"".data = ("\"a\\nb\"".data, []) ∧
    '\n' ∉ (aReadQuotedString "\"a\\nb\"".data).1 ∧
    aReadQuotedString "\"ab".data = ("\"ab".data, []) ∧
    aTokenize "\"a\\nb\"" = ["\"a\\nb\""] ∧
    aTokenize "\"ab" = ["\"ab"] :=
  ⟨rfl, by decide, rfl, rfl, rfl⟩

/-- C8, amended: `read_quoted_string` handles exactly one escape — a
backslash immediately before a double quote yields a double quote.  For any
body `s` free of quotes and backslashes: (1) a terminated string lexes to
the token `"s"` with the rest untouched; (2) an unterminated string consumes
the whole input into a token, raising no error; (3) the sequence `\n` inside
a string is copied verbatim as two characters (backslash, n) — likewise any
other backslash escape; (4) the sequence `\"` is processed into a single
quote character. -/
theorem c8_quoted_string (s rest : List Char) (hq : '"' ∉ s) (hb : '\\' ∉ s) :
    aReadQuotedString ('"' :: s ++ '"' :: rest) = ('"' :: s ++ ['"'], rest) ∧
    aReadQuotedString ('"' :: s) = ('"' :: s, []) ∧
    aReadQuotedString ('"' :: s ++ '\\' :: 'n' :: '"' :: rest)
      = ('"' :: s ++ ['\\', 'n', '"'], rest) ∧
    aReadQuotedString ('"' :: s ++ '\\' :: '"' :: '"' :: rest)
      = ('"' :: s ++ ['"', '"'], rest) := by
  refine ⟨?_, ?_, ?_, ?_⟩
  · show aRqsGo (s ++ '"' :: rest) ['"'] = _
    rw [aRqsGo_clean s _ _ hq hb]
    simp [aRqsGo]
  · show aRqsGo s ['"'] = _
    have h2 := aRqsGo_clean s [] ['"'] hq hb
    rw [List.append_nil] at h2
    rw [h2]
    simp [aRqsGo]
  · show aRqsGo (s ++ '\\' :: 'n' :: '"' :: rest) ['"'] = _
    rw [aRqsGo_clean s _ _ hq hb]
    simp [aRqsGo]
  · show aRqsGo (s ++ '\\' :: '"' :: '"' :: rest) ['"'] = _
    rw [aRqsGo_clean s _ _ hq hb]
    simp [aRqsGo]

/-- C8, witness: instantiating `c8_quoted_string` with body `a` and
remainder `z`. -/
theorem c8_quoted_string_witness :
    ('"' ∉ ['a'] ∧ '\\' ∉ ['a']) ∧
    (aReadQuotedString ('"' :: ['a'] ++ '"' :: ['z']) = ('"' :: ['a'] ++ ['"'], ['z']) ∧
      aReadQuotedString ('"' :: ['a']) = ('"' :: ['a'], []) ∧
      aReadQuotedString ('"' :: ['a'] ++ '\\' :: 'n' :: '"' :: ['z'])
        = ('"' :: ['a'] ++ ['\\', 'n', '"'], ['z']) ∧
      aReadQuotedString ('"' :: ['a'] ++ '\\' :: '"' :: '"' :: ['z'])
        = ('"' :: ['a'] ++ ['"', '"'], ['z'])) :=
  ⟨⟨by decide, by decide⟩, c8_quoted_string ['a'] ['z'] (by decide) (by decide)⟩

/-- C9, counterexample: edn.hpp's `parse_fn::operator()` has no empty-input
case — zero top-level forms fall into the same branch as two or more, so
parsing the empty input yields the one-element List `(do)`, not Nil. -/
theorem c9_counterexample :
    aParse "" = .ok (AValue.list [AValue.symbol "do"]) ∧
    AValue.list [AValue.symbol "do"] ≠ AValue.nil :=
  ⟨rfl, by simp⟩

/-- C9, amended: the parse.hpp reader returns Nil for an empty input, the
single form itself for a one-form input, and the List `(do f1 … fn)` for two
or more forms; the edn.hpp reader agrees on the one-form and many-form cases
but returns the one-element List `(do)` — not Nil — for an empty input. -/
theorem c9_top_level :
    parse "" = .ok Value.nil ∧
    aParse "" = .ok (AValue.list [AValue.symbol "do"]) ∧
    (∀ v : Value, wrapTop [v] = v) ∧
    (∀ (v w : Value) (rest : List Value),
      wrapTop (v :: w :: rest) = Value.list (Value.symbol "do" :: v :: w :: rest)) ∧
    aWrapTop [] = AValue.list [AValue.symbol "do"] ∧
    (∀ v : AValue, aWrapTop [v] = v) ∧
    (∀ (v w : AValue) (rest : List AValue),
      aWrapTop (v :: w :: rest) = AValue.list (AValue.symbol "do" :: v :: w :: rest)) ∧
    (∀ (text : String) (vs : List Value),
      readAll (2 * (tokenize text).length + 2) (tokenize text) = .ok vs →
        parse text = .ok (wrapTop vs)) ∧
    (∀ (text : String) (vs : List AValue),
      aReadAll (2 * (aTokenize text).length + 2) (aTokenize text) = .ok vs →
        aParse text = .ok (aWrapTop vs)) := by
  refine ⟨rfl, rfl, fun v => rfl, fun v w rest => rfl, rfl, fun v => rfl,
    fun v w rest => rfl, ?_, ?_⟩
  · intro text vs h
    simp only [parse, h, PRes.bind]
  · intro text vs h
    simp only [aParse, h, PRes.bind]

/-- C9, witness: instantiating the quantified parts of `c9_top_level` on the
two-form input `1 2`, which parses to `(do 1 2)`. -/
theorem c9_top_level_witness :
    readAll (2 * (tokenize "1 2").length + 2) (tokenize "1 2")
      = .ok [Value.integer 1, Value.integer 2] ∧
    parse "1 2" = .ok (wrapTop [Value.integer 1, Value.integer 2]) ∧
    wrapTop [Value.integer 1, Value.integer 2]
      = Value.list [Value.symbol "do", Value.integer 1, Value.integer 2] :=
  ⟨rfl, (c9_top_level.2.2.2.2.2.2.2.1) "1 2" [Value.integer 1, Value.integer 2] rfl,
    (c9_top_level.2.2.2.1) (Value.integer 1) (Value.integer 2) []⟩


/-- C3, evidence: `stack_t::insert` uses `std::map::emplace`, which does NOT
overwrite.  Defining `x` to 1 and then to 2 in the same frame leaves `x`
bound to 1, although the second `insert` (and hence `(def x 2)`) returns 2:
end to end, `(do (def x 1) (def x 2))` evaluates to 2 while
`(do (def x 1) (def x 2) x)` evaluates to 1.  The claim's second part — a
define in a pushed child scope leaves the parent binding unchanged — does
hold (last two conjuncts). -/
theorem c3_insert_does_not_overwrite :
    stackGet (stackInsert (stackInsert [⟨[], none⟩] 0 "x" (.integer 1)) 0 "x" (.integer 2))
      0 "x" = some (.integer 1) ∧
    resValue (doEval 20 (.list [.symbol "do",
        .list [.symbol "def", .symbol "x", .integer 1],
        .list [.symbol "def", .symbol "x", .integer 2]]) 0 [⟨[], none⟩])
      = some (.integer 2) ∧
    resValue (doEval 20 (.list [.symbol "do",
        .list [.symbol "def", .symbol "x", .integer 1],
        .list [.symbol "def", .symbol "x", .integer 2],
        .symbol "x"]) 0 [⟨[], none⟩])
      = some (.integer 1) ∧
    stackGet (stackInsert (stackInsert [⟨[], none⟩] 0 "x" (.integer 1) ++ [⟨[], some 0⟩])
        1 "x" (.integer 9)) 0 "x" = some (.integer 1) ∧
    stackGet (stackInsert (stackInsert [⟨[], none⟩] 0 "x" (.integer 1) ++ [⟨[], some 0⟩])
        1 "x" (.integer 9)) 1 "x" = some (.integer 9) :=
  ⟨rfl, rfl, rfl, rfl, rfl⟩

/-- C4, counterexample: the Callable `(fn [x & xs] xs)` invoked with exactly
one argument — `n = |mandatory|` — does NOT match its variadic overload and
fails with the no-overload error, where the claim requires a match binding
`xs` to the empty List; with two arguments it matches and yields `(8)`. -/
theorem c4_counterexample :
    doEval 20 (.list [.list [.symbol "fn",
        .vector [.symbol "x", .symbol "&", .symbol "xs"], .symbol "xs"],
      .integer 7]) 0 [⟨[], none⟩]
      = .err "could not resolve function overload for 1 arg(s)" ∧
    resValue (doEval 20 (.list [.list [.symbol "fn",
        .vector [.symbol "x", .symbol "&", .symbol "xs"], .symbol "xs"],
      .integer 7, .integer 8]) 0 [⟨[], none⟩])
      = some (.list [.integer 8]) :=
  ⟨rfl, rfl⟩

/-- C4, amended: a variadic overload matches iff the argument count STRICTLY
exceeds the mandatory count (`args.size() > mandatory.size()`).  For the
single-overload Callable with parameters `[names… & r]`: `params()` yields
the mandatory names and rest symbol; invocation with `n ≤ |mandatory|`
arguments throws the no-overload error (in particular `n = |mandatory|`, the
case the claim asserts to match); invocation with `n > |mandatory|` binds
the mandatory symbols to the first arguments and the rest symbol to the List
of the surplus arguments, and runs the body. -/
theorem c4_variadic_needs_surplus (names : List String) (r : String) (body : List Value)
    (h1 : "&" ∉ names) (h2 : r ≠ "&") :
    overloadParams (Value.vector ((names ++ ["&", r]).map Value.symbol))
      = .ok (names, some r) ∧
    (∀ (g closIdx : Nat) (args : List Value) (st : Store), args.length ≤ names.length →
      invokeClosure (g + 3)
          [(Value.vector ((names ++ ["&", r]).map Value.symbol), body)] closIdx args st
        = .err ("could not resolve function overload for "
            ++ toString args.length ++ " arg(s)")) ∧
    (∀ (g closIdx : Nat) (args : List Value) (st : Store), args.length > names.length →
      invokeClosure (g + 2)
          [(Value.vector ((names ++ ["&", r]).map Value.symbol), body)] closIdx args st
        = evalBlock g body st.length
            (stackInsert
              (bindArgs (st ++ [⟨[], some closIdx⟩]) st.length names (args.take names.length))
              st.length r (Value.list (args.drop names.length)))) := by
  have hp := overloadParams_symbols (names ++ ["&", r])
  rw [paramsSpec_variadic names r h1 h2] at hp
  refine ⟨hp, ?_, ?_⟩
  · intro g closIdx args st hlen
    show invokeLoop (g + 2) _ _ _ _ = _
    rw [invokeLoop, hp]
    simp only [PRes.bind]
    rw [if_neg (by omega)]
    rw [invokeLoop]
  · intro g closIdx args st hlen
    show invokeLoop (g + 1) _ _ _ _ = _
    rw [invokeLoop, hp]
    simp only [PRes.bind]
    rw [if_pos hlen]

/-- C4, witness: instantiating `c4_variadic_needs_surplus` for
`(fn [x & xs] xs)` invoked with the single argument 7. -/
theorem c4_variadic_needs_surplus_witness :
    ("&" ∉ ["x"] ∧ "xs" ≠ "&" ∧ [Value.integer 7].length ≤ ["x"].length) ∧
    invokeClosure 3 [(Value.vector ((["x"] ++ ["&", "xs"]).map Value.symbol),
        [Value.symbol "xs"])] 0 [Value.integer 7] [⟨[], none⟩]
      = .err ("could not resolve function overload for "
          ++ toString [Value.integer 7].length ++ " arg(s)") :=
  ⟨⟨by decide, by decide, by decide⟩,
    (c4_variadic_needs_surplus ["x"] "xs" [Value.symbol "xs"] (by decide) (by decide)).2.1
      0 0 [Value.integer 7] [⟨[], none⟩] (by decide)⟩

/-- C6, counterexample: a failure two forms deep — the unbound symbol `foo`
inside `(do (do foo))` — produces a message wrapped exactly ONCE, with the
top-level form only: the wrapper text occurs once in the final message, and
the wrapper the claim predicts for the enclosing inner form `(do foo)` does
not occur at all. -/
theorem c6_counterexample :
    evalTop 20 (.list [.symbol "do", .list [.symbol "do", .symbol "foo"]]) 0 [⟨[], none⟩]
      = .err "Error on evaluating `(do (do foo))`: Unrecognized symbol `foo`" ∧
    countOccs "Error on evaluating"
      "Error on evaluating `(do (do foo))`: Unrecognized symbol `foo`" = 1 ∧
    countOccs "Error on evaluating `(do foo)`"
      "Error on evaluating `(do (do foo))`: Unrecognized symbol `foo`" = 0 :=
  ⟨rfl, by decide, by decide⟩

/-- C6, amended: only the top-level `eval` wraps — it re-throws a thrown
error with a single "Error on evaluating `<top form>`: <inner>" wrapper,
preserving the innermost message verbatim; recursive evaluation proceeds
through `do_eval`, which never wraps, and non-error results (including the
out-of-bounds outcome, which is not an exception) pass through unchanged. -/
theorem c6_wrap_once (f : Nat) (v : Value) (sIdx : Nat) (st : Store) :
    (∀ m, doEval f v sIdx st = .err m →
      evalTop f v sIdx st = .err ("Error on evaluating `" ++ formatValue v ++ "`: " ++ m)) ∧
    (∀ r, doEval f v sIdx st = .ok r → evalTop f v sIdx st = .ok r) ∧
    (doEval f v sIdx st = .oob → evalTop f v sIdx st = .oob) :=
  ⟨fun _ h => by simp [evalTop, h], fun _ h => by simp [evalTop, h],
    fun h => by simp [evalTop, h]⟩

/-- C6, witness: instantiating `c6_wrap_once` on the nested failure
`(do (do bar))`. -/
theorem c6_wrap_once_witness :
    doEval 20 (.list [.symbol "do", .list [.symbol "do", .symbol "bar"]]) 0 [⟨[], none⟩]
      = .err "Unrecognized symbol `bar`" ∧
    evalTop 20 (.list [.symbol "do", .list [.symbol "do", .symbol "bar"]]) 0 [⟨[], none⟩]
      = .err ("Error on evaluating `"
          ++ formatValue (.list [.symbol "do", .list [.symbol "do", .symbol "bar"]])
          ++ "`: " ++ "Unrecognized symbol `bar`") :=
  ⟨rfl,
    (c6_wrap_once 20 (.list [.symbol "do", .list [.symbol "do", .symbol "bar"]]) 0
        [⟨[], none⟩]).1 "Unrecognized symbol `bar`" rfl⟩

/-- C7, counterexample: evaluating `(fn [1] x)` — whose parameter list
contains the non-Symbol element 1 — SUCCEEDS, returning a Callable (no
bad-parameters error at definition time); the error is raised only when the
Callable is invoked. -/
theorem c7_counterexample :
    doEval 20 (.list [.symbol "fn", .vector [.integer 1], .symbol "x"]) 0 [⟨[], none⟩]
      = .ok (.callable [(.vector [.integer 1], [.symbol "x"])] 0, [⟨[], none⟩]) ∧
    doEval 20 (.list [.list [.symbol "fn", .vector [.integer 1], .symbol "x"], .integer 5]) 0
      [⟨[], none⟩] = .err "Expected type symbol, actual integer" :=
  ⟨rfl, rfl⟩

/-- C7, amended: `fn` checks at definition time only that the parameter
list is a Vector: (1) with a Vector of ANY contents the fn form yields a
Callable storing it unexamined; (2) a parameter list that is neither a List
(multi-overload syntax) nor a Vector throws the vector type mismatch at
definition time; (3) the Symbol-ness of the parameter elements is checked
by `params()` — throwing at its first non-Symbol element; (4) an all-Symbol
list is always accepted (several `&` and a trailing `&` included), computing
`paramsSpec`; (5) `params()` runs on INVOCATION — its error surfaces when
the Callable is applied, before any match test. -/
theorem c7_fn_validation_lazy (g sIdx : Nat) (st : Store) :
    (∀ (ps rest : List Value),
      doEval (g + 2) (.list (.symbol "fn" :: .vector ps :: rest)) sIdx st
        = .ok (.callable [(.vector ps, rest)] sIdx, st)) ∧
    (∀ (p : Value) (rest : List Value), isList p = false → isVector p = false →
      doEval (g + 2) (.list (.symbol "fn" :: p :: rest)) sIdx st
        = .err ("Expected type vector, actual " ++ (vtype p).name)) ∧
    (∀ (pre : List String) (x : Value) (post : List Value), vtype x ≠ VType.symbol →
      overloadParams (.vector (pre.map Value.symbol ++ x :: post))
        = .err ("Expected type symbol, actual " ++ (vtype x).name)) ∧
    (∀ names : List String,
      overloadParams (.vector (names.map Value.symbol)) = .ok (paramsSpec names)) ∧
    (∀ (params : Value) (body : List Value) (closIdx : Nat) (args : List Value) (m : String),
      overloadParams params = .err m →
        invokeClosure (g + 2) [(params, body)] closIdx args st = .err m) := by
  refine ⟨fun ps rest => rfl, ?_, ?_, overloadParams_symbols, ?_⟩
  · intro p rest hlist hvec
    cases p <;> simp_all [doEval, evalList, evalFn, evalMakeCallable, isList, isVector,
      createOverload, vtype, PRes.bind, VType.name]
  · intro pre x post hx
    simp [overloadParams, overloadParamsGo_nonsymbol pre x post false [] [] hx]
  · intro params body closIdx args m h
    show invokeLoop (g + 1) _ _ _ _ = _
    rw [invokeLoop, h]
    rfl

/-- C7, witness: instantiating `c7_fn_validation_lazy`: `(fn 3)` (parameter
list the Integer 3) fails at definition time with the vector type mismatch. -/
theorem c7_fn_validation_lazy_witness :
    (isList (Value.integer 3) = false ∧ isVector (Value.integer 3) = false) ∧
    doEval 2 (.list [.symbol "fn", .integer 3]) 0 [⟨[], none⟩]
      = .err ("Expected type vector, actual " ++ (vtype (Value.integer 3)).name) :=
  ⟨⟨rfl, rfl⟩, (c7_fn_validation_lazy 0 0 [⟨[], none⟩]).2.1 (Value.integer 3) [] rfl rfl⟩

/-- C10, counterexample: `(quote)` — the special form `quote` with no
operand — does NOT raise an error: `eval_quote` reads `input[0]` through
the unchecked `operator[]` past the end of the empty operand vector
(undefined behaviour, `oob`); and `(if true 5)` — `if` with a missing else
branch — returns the value 5 rather than raising. -/
theorem c10_counterexample :
    doEval 20 (.list [.symbol "quote"]) 0 [⟨[], none⟩] = .oob ∧
    resValue (doEval 20 (.list [.symbol "if", .boolean true, .integer 5]) 0 [⟨[], none⟩])
      = some (.integer 5) :=
  ⟨rfl, rfl⟩

/-- C10, amended: special forms access their operands through the
bounds-checked `at()` — which throws — EXCEPT `quote`, whose missing operand
is read past the end of the vector (undefined behaviour, not an error), and
the lazily reached operands of `if`/`cond`: `(if true t)` returns `t`'s
value without error, `(if false t)` throws only because the else operand is
actually reached, `(cond :else)` throws on the missing expression,
`(cond)` returns Nil, and `(let)` / `(def x)` throw on their missing
operands. -/
theorem c10_missing_operands (g sIdx : Nat) (st : Store) :
    doEval (g + 2) (.list [.symbol "quote"]) sIdx st = .oob ∧
    (∀ t : Value, doEval (g + 5) (.list [.symbol "if", .boolean true, t]) sIdx st
      = doEval (g + 2) t sIdx st) ∧
    (∀ t : Value, doEval (g + 5) (.list [.symbol "if", .boolean false, t]) sIdx st
      = .err vectorAtMsg) ∧
    doEval (g + 3) (.list [.symbol "cond", .keyword "else"]) sIdx st = .err vectorAtMsg ∧
    doEval (g + 3) (.list [.symbol "cond"]) sIdx st = .ok (.nil, st) ∧
    doEval (g + 3) (.list [.symbol "let"]) sIdx st = .err vectorAtMsg ∧
    doEval (g + 3) (.list [.symbol "def", .symbol "x"]) sIdx st = .err vectorAtMsg :=
  ⟨rfl, fun _ => rfl, fun _ => rfl, rfl, rfl, rfl, rfl⟩

end Edn
